import Mathlib

namespace SqliteTool

/-- Scalar values as they flow through the Python layer into SQLite:
NULL, INTEGER, TEXT and BLOB (REAL is out of scope for the claims). -/
inductive Val where
  | null
  | int (i : Int)
  | text (s : String)
  | blob (bytes : List Nat)
deriving DecidableEq

/-- A Python dict mapping column names to values, kept in insertion order. -/
abbrev Record := List (String × Val)

/-- The uniform result envelopes produced by the tool functions:
rows for SELECT, an affected-row count, a generated id from insert,
an acknowledgement message from add_column, or a tagged error. -/
inductive Envelope where
  | rows (records : List Record)
  | affected (n : Int)
  | insertedId (id : Nat)
  | ack (msg : String)
  | failure (msg : String)
deriving DecidableEq

/-- One column of a table as the store describes it (PRAGMA table_info). -/
structure ColDef where
  name : String
  ty : String
  notnull : Bool
  dflt : Val
  pk : Bool
deriving DecidableEq

/-- One table of the modelled store: declared columns, the next rowid to
assign, and the rows (rowid paired with the inserted record). -/
structure Table where
  cols : List ColDef
  nextId : Nat
  rows : List (Nat × Record)
deriving DecidableEq

/-- A database: tables in creation order, keyed by name. -/
abbrev Store := List (String × Table)

/-- The filesystem as seen through db paths: a path maps to the store
persisted there, or none when no database file exists at that path. -/
abbrev World := String → Option Store

/-- Look a table up by name. -/
def getTable : Store → String → Option Table
  | [], _ => none
  | (n, tb) :: rest, t => if n = t then some tb else getTable rest t

/-- Replace (or append) a table, preserving creation order. -/
def putTable : Store → String → Table → Store
  | [], t, tb => [(t, tb)]
  | (n, x) :: rest, t, tb =>
    if n = t then (t, tb) :: rest else (n, x) :: putTable rest t tb

/-- sqlite3.connect: opening a path where no database file exists silently
creates a fresh empty store (modelled external behaviour of sqlite3). -/
def connect (w : World) (path : String) : Store := (w path).getD []

/-- Persist a store at a path (the effect of conn.commit). -/
def setW (w : World) (path : String) (st : Store) : World :=
  fun q => if q = path then some st else w q

/-- Observable interactions with the store driver, in order. -/
inductive Ev where
  | connect (path : String)
  | exec (sql : String) (params : List Val)
  | commit
  | close
deriving DecidableEq

/-- Errors raised by the store driver: sqlite3.OperationalError versus any
other exception (both render as their message via str(e)). -/
inductive EngErr where
  | operational (msg : String)
  | other (msg : String)
deriving DecidableEq

/-- str(e) on a driver error. -/
def errStr : EngErr → String
  | .operational m => m
  | .other m => m

instance {e a : Type} [DecidableEq e] [DecidableEq a] : DecidableEq (Except e a)
  | .error x, .error y =>
    if h : x = y then isTrue (by rw [h]) else isFalse (by simp [h])
  | .error _, .ok _ => isFalse (by simp)
  | .ok _, .error _ => isFalse (by simp)
  | .ok x, .ok y =>
    if h : x = y then isTrue (by rw [h]) else isFalse (by simp [h])

/-- What a cursor holds after execute: the result description (column
names), the fetched rows, cursor.rowcount, cursor.lastrowid, and the
store state the statement produced (visible only after commit). -/
structure ExecResult where
  description : List String
  fetched : List (List Val)
  rowcount : Int
  lastId : Nat
  post : Store
deriving DecidableEq

/-- The store driver: cursor.execute on a store with SQL text and
positional parameters, which either yields a cursor state or raises. -/
abbrev Engine := Store → String → List Val → Except EngErr ExecResult

/-- Python str.strip(): drop leading and trailing whitespace. -/
def pyStrip (s : String) : String :=
  ⟨((s.data.dropWhile Char.isWhitespace).reverse.dropWhile Char.isWhitespace).reverse⟩

/-- Python str.upper() restricted to ASCII case mapping. -/
def pyUpper (s : String) : String := ⟨s.data.map Char.toUpper⟩

/-- Python str.lower() restricted to ASCII case mapping. -/
def pyLower (s : String) : String := ⟨s.data.map Char.toLower⟩

/-- Python substring containment: pat in s. -/
def isSub (pat s : String) : Prop := pat.data <:+: s.data

instance (pat s : String) : Decidable (isSub pat s) :=
  List.decidableInfix pat.data s.data

/-- query.strip().upper().startswith of the SELECT keyword — the
classification test of execute_sql_query. -/
def pyStartsWithSelect (q : String) : Bool :=
  "SELECT".data.isPrefixOf (pyUpper (pyStrip q)).data

/-- A single-quote character, kept out of string literals. -/
def sq : String := String.singleton (Char.ofNat 39)

/-- Parse a decimal natural number from characters. -/
def natFromChars (l : List Char) : Option Nat :=
  if l ≠ [] ∧ l.all Char.isDigit then
    some (l.foldl (fun n c => n * 10 + (c.toNat - 48)) 0)
  else none

/-- Split a character list at the first occurrence of a pattern,
returning the pieces before and after it. -/
def takeUntil (pat : List Char) : List Char → Option (List Char × List Char)
  | [] => none
  | c :: cs =>
    if pat.isPrefixOf (c :: cs) then some ([], (c :: cs).drop pat.length)
    else
      match takeUntil pat cs with
      | some (b, a) => some (c :: b, a)
      | none => none

/-- Fuel-driven repeated splitting at every occurrence of a pattern. -/
def splitListAux (pat : List Char) : Nat → List Char → List (List Char)
  | 0, l => [l]
  | fuel + 1, l =>
    match takeUntil pat l with
    | none => [l]
    | some (b, a) => b :: splitListAux pat fuel a

/-- Split at every occurrence of a pattern (the pattern is nonempty for
all uses, so a fuel of the list length suffices). -/
def splitList (pat l : List Char) : List (List Char) := splitListAux pat l.length l

/-- Strip a literal prefix from a string, or fail. -/
def chopPrefix (s p : String) : Option String :=
  if p.data.isPrefixOf s.data then some ⟨s.data.drop p.data.length⟩ else none

/-- Strip a literal suffix from a string, or fail. -/
def chopSuffix (s p : String) : Option String :=
  if p.data.isSuffixOf s.data then some ⟨s.data.take (s.data.length - p.data.length)⟩
  else none

/-- Split a string at the first occurrence of a separator. -/
def splitFirst (s pat : String) : Option (String × String) :=
  (takeUntil pat.data s.data).map fun pr => (⟨pr.1⟩, ⟨pr.2⟩)

/-- Split a string at every occurrence of a separator. -/
def splitAll (s pat : String) : List String :=
  (splitList pat.data s.data).map fun l => ⟨l⟩

/-- The SQL text built by insert_row (line 163 of the source): table and
column names are interpolated directly, values become placeholders. -/
def insertSql (table : String) (columns : List String) : String :=
  "INSERT INTO " ++ table ++ " (" ++ String.intercalate ", " columns ++
    ") VALUES (" ++ String.intercalate ", " (columns.map fun _ => "?") ++ ")"

/-- The SQL text built by update_rows (lines 200-203 of the source). -/
def updateSql (table : String) (dataCols condCols : List String) : String :=
  "UPDATE " ++ table ++ " SET " ++
    String.intercalate ", " (dataCols.map fun c => c ++ " = ?") ++
    " WHERE " ++ String.intercalate " AND " (condCols.map fun c => c ++ " = ?")

/-- The SQL text built by delete_rows (lines 238-239 of the source). -/
def deleteSql (table : String) (condCols : List String) : String :=
  "DELETE FROM " ++ table ++ " WHERE " ++
    String.intercalate " AND " (condCols.map fun c => c ++ " = ?")

/-- The SQL text built by add_column (line 295 of the source). -/
def alterSql (table columnName dataType : String) : String :=
  "ALTER TABLE " ++ table ++ " ADD COLUMN " ++ columnName ++ " " ++ dataType

/-- The SELECT-by-rowid query a caller issues to read back an inserted row. -/
def selectSql (cols : List String) (table : String) (id : Nat) : String :=
  "SELECT " ++ String.intercalate ", " cols ++ " FROM " ++ table ++
    " WHERE rowid = " ++ toString id

/-- The catalog query issued by list_tables and get_database_schema
(lines 82 and 132 of the source). -/
def masterSql : String :=
  "SELECT name FROM sqlite_master WHERE type=" ++ sq ++ "table" ++ sq ++
    " AND name NOT LIKE " ++ sq ++ "sqlite_%" ++ sq ++ ";"

/-- The per-table introspection query of get_database_schema (line 89). -/
def pragmaSql (table : String) : String := "PRAGMA table_info(" ++ table ++ ");"

/-- The fixed whitelist of declared types accepted by add_column. -/
def allowed_types : List String :=
  ["TEXT", "INTEGER", "REAL", "NUMERIC", "BLOB", "DATE", "DATETIME"]

/-- The statement forms the modelled store engine understands: the exact
queries this tool generates for the scenarios under verification. -/
inductive Stmt where
  | master
  | pragmaInfo (t : String)
  | selectRowid (cols : List String) (t : String) (id : Nat)
  | insertInto (t : String) (cols : List String)
  | alterAdd (t : String) (c : String) (ty : String)
deriving DecidableEq

/-- Recover the structured statement from SQL text, for the statement
forms the modelled engine supports; anything else is a syntax error. -/
def parseStmt (sql : String) : Option Stmt :=
  if sql = masterSql then some .master
  else
    match chopPrefix sql "PRAGMA table_info(" with
    | some rest => (chopSuffix rest ");").map .pragmaInfo
    | none =>
      match chopPrefix sql "SELECT " with
      | some rest =>
        match splitFirst rest " FROM " with
        | some (colsStr, rest2) =>
          match splitFirst rest2 " WHERE rowid = " with
          | some (t, idStr) =>
            (natFromChars idStr.data).map fun n =>
              .selectRowid (splitAll colsStr ", ") t n
          | none => none
        | none => none
      | none =>
        match chopPrefix sql "INSERT INTO " with
        | some rest =>
          match splitFirst rest " (" with
          | some (t, rest2) =>
            match splitFirst rest2 ") VALUES (" with
            | some (colsStr, _) => some (.insertInto t (splitAll colsStr ", "))
            | none => none
          | none => none
        | none =>
          match chopPrefix sql "ALTER TABLE " with
          | some rest =>
            match splitFirst rest " ADD COLUMN " with
            | some (t, rest2) =>
              match splitFirst rest2 " " with
              | some (c, ty) => some (.alterAdd t c ty)
              | none => none
            | none => none
          | none => none

/-- Names of the declared columns of a table. -/
def colNames (cs : List ColDef) : List String := cs.map (·.name)

/-- Look a key up in a record (first match wins, as in a Python dict). -/
def dlookup : Record → String → Option Val
  | [], _ => none
  | (k, v) :: rest, key => if k = key then some v else dlookup rest key

/-- Modelled semantics of the store for the supported statements:
the catalog query lists tables, PRAGMA describes columns, SELECT by
rowid fetches matching rows (missing record fields read as NULL),
INSERT appends a row under the next rowid, and ALTER ADD appends a
column or raises the duplicate-column / missing-table errors SQLite
raises. -/
def runStmt (st : Store) : Stmt → List Val → Except EngErr ExecResult
  | .master, _ => .ok ⟨["name"], st.map fun p => [Val.text p.1], -1, 0, st⟩
  | .pragmaInfo t, _ =>
    match getTable st t with
    | none => .ok ⟨["cid", "name", "type", "notnull", "dflt_value", "pk"], [], -1, 0, st⟩
    | some tb =>
      .ok ⟨["cid", "name", "type", "notnull", "dflt_value", "pk"],
        tb.cols.enum.map fun p =>
          [Val.int p.1, Val.text p.2.name, Val.text p.2.ty,
           Val.int (if p.2.notnull then 1 else 0), p.2.dflt,
           Val.int (if p.2.pk then 1 else 0)],
        -1, 0, st⟩
  | .selectRowid cols t id, _ =>
    match getTable st t with
    | none => .error (.operational ("no such table: " ++ t))
    | some tb =>
      if ∀ c ∈ cols, c ∈ colNames tb.cols then
        .ok ⟨cols,
          (tb.rows.filter fun p => p.1 = id).map fun p =>
            cols.map fun c => (dlookup p.2 c).getD Val.null,
          -1, 0, st⟩
      else .error (.operational "no such column")
  | .insertInto t cols, params =>
    match getTable st t with
    | none => .error (.operational ("no such table: " ++ t))
    | some tb =>
      if ∀ c ∈ cols, c ∈ colNames tb.cols then
        if params.length = cols.length then
          .ok ⟨[], [], 1, tb.nextId,
            putTable st t ⟨tb.cols, tb.nextId + 1, tb.rows ++ [(tb.nextId, cols.zip params)]⟩⟩
        else .error (.operational "wrong number of bindings supplied")
      else .error (.operational ("table " ++ t ++ " has no such column"))
  | .alterAdd t c ty, _ =>
    match getTable st t with
    | none => .error (.operational ("no such table: " ++ t))
    | some tb =>
      if c ∈ colNames tb.cols then
        .error (.operational ("duplicate column name: " ++ c))
      else
        .ok ⟨[], [], -1, 0,
          putTable st t ⟨tb.cols ++ [⟨c, ty, false, Val.null, false⟩], tb.nextId, tb.rows⟩⟩

/-- The modelled sqlite3 driver: parse the SQL text and run it. -/
def sqliteEngine : Engine := fun st sql params =>
  match parseStmt sql with
  | none => .error (.operational ("unrecognized statement: " ++ sql))
  | some stm => runStmt st stm params

/-- CPython dict assignment: overwriting an existing key keeps its
position, a new key is appended at the end. -/
def dictInsert (d : Record) (k : String) (v : Val) : Record :=
  if k ∈ d.map Prod.fst then d.map fun p => if p.1 = k then (k, v) else p
  else d ++ [(k, v)]

/-- Python dict(zip(names, row)), as used on line 50 of the source. -/
def pyDictZip (names : List String) (row : List Val) : Record :=
  (names.zip row).foldl (fun d p => dictInsert d p.1 p.2) []

/-- str(row[0]) extraction for values known to be text. -/
def valStr : Val → String
  | .text s => s
  | _ => ""

/-- Python truthiness of a scalar, as in bool(col[3]). -/
def valTruthy : Val → Bool
  | .null => false
  | .int i => decide (i ≠ 0)
  | .text s => decide (s ≠ "")
  | .blob b => decide (b ≠ [])

/-- execute_sql_query: connect, execute the raw text, then classify by
the leading keyword — SELECT returns the fetched rows paired with the
result description, anything else commits and reports rowcount; any
driver error becomes an error envelope; the connection always closes. -/
def execute_sql_query (eng : Engine) (query db_path : String) (w : World) :
    Envelope × World × List Ev :=
  match eng (connect w db_path) query [] with
  | .error e => (.failure (errStr e), w, [.connect db_path, .exec query [], .close])
  | .ok r =>
    if pyStartsWithSelect query then
      (.rows (r.fetched.map (pyDictZip r.description)), w,
        [.connect db_path, .exec query [], .close])
    else
      (.affected r.rowcount, setW w db_path r.post,
        [.connect db_path, .exec query [], .commit, .close])

/-- list_tables result: the table names, or the tagged error shape
the source returns on failure. -/
inductive NamesOut where
  | ok (names : List String)
  | err (msg : String)
deriving DecidableEq

/-- list_tables: run the catalog query and collect the first field of
every returned row. -/
def list_tables (eng : Engine) (db_path : String) (w : World) :
    NamesOut × World × List Ev :=
  match eng (connect w db_path) masterSql [] with
  | .error e => (.err (errStr e), w, [.connect db_path, .exec masterSql [], .close])
  | .ok r =>
    (.ok (r.fetched.map fun row => valStr (row.getD 0 .null)), w,
      [.connect db_path, .exec masterSql [], .close])

/-- One column entry of get_database_schema's output. -/
structure PyCol where
  name : String
  ty : String
  notnull : Bool
  dflt : Val
  primary_key : Bool
deriving DecidableEq

/-- One table entry of get_database_schema's output. -/
structure PyTableInfo where
  table : String
  columns : List PyCol
deriving DecidableEq

/-- get_database_schema result: the schema, or a tagged error. -/
inductive SchemaOut where
  | ok (tables : List PyTableInfo)
  | err (msg : String)
deriving DecidableEq

/-- Build a column entry from a PRAGMA table_info row, reading the
indices the source reads (name, type, notnull, default, pk). -/
def pyColOfRow (row : List Val) : PyCol :=
  ⟨valStr (row.getD 1 .null), valStr (row.getD 2 .null),
   valTruthy (row.getD 3 .null), row.getD 4 .null, valTruthy (row.getD 5 .null)⟩

/-- The per-table loop of get_database_schema: introspect each table in
turn; a driver error aborts the loop and propagates to the handler. -/
def schemaLoop (eng : Engine) (st : Store) :
    List String → Except EngErr (List PyTableInfo × List Ev)
  | [] => .ok ([], [])
  | t :: ts =>
    match eng st (pragmaSql t) [] with
    | .error e => .error e
    | .ok r =>
      match schemaLoop eng st ts with
      | .error e => .error e
      | .ok (rest, evs) =>
        .ok (⟨t, r.fetched.map pyColOfRow⟩ :: rest, Ev.exec (pragmaSql t) [] :: evs)

/-- get_database_schema: list the user tables, then describe each one;
any driver error becomes a tagged error result. -/
def get_database_schema (eng : Engine) (db_path : String) (w : World) :
    SchemaOut × World × List Ev :=
  match eng (connect w db_path) masterSql [] with
  | .error e => (.err (errStr e), w, [.connect db_path, .exec masterSql [], .close])
  | .ok r =>
    match schemaLoop eng (connect w db_path)
        (r.fetched.map fun row => valStr (row.getD 0 .null)) with
    | .error e => (.err (errStr e), w, [.connect db_path, .exec masterSql [], .close])
    | .ok (infos, evs) =>
      (.ok infos, w, [.connect db_path, .exec masterSql []] ++ evs ++ [.close])

/-- insert_row: reject an empty record before doing anything, otherwise
interpolate the table and key names into the INSERT text, bind the
values positionally, commit, and return the generated rowid. -/
def insert_row (eng : Engine) (table : String) (data : Record)
    (db_path : String) (w : World) : Envelope × World × List Ev :=
  if data = [] then (.failure "No data provided", w, [])
  else
    match eng (connect w db_path) (insertSql table (data.map Prod.fst))
        (data.map Prod.snd) with
    | .error e =>
      (.failure (errStr e), w,
        [.connect db_path,
         .exec (insertSql table (data.map Prod.fst)) (data.map Prod.snd), .close])
    | .ok r =>
      (.insertedId r.lastId, setW w db_path r.post,
        [.connect db_path,
         .exec (insertSql table (data.map Prod.fst)) (data.map Prod.snd),
         .commit, .close])

/-- update_rows: both the record and the condition map must be nonempty,
otherwise fail validation before any store interaction; the parameters
are the record values followed by the condition values. -/
def update_rows (eng : Engine) (table : String) (data cond : Record)
    (db_path : String) (w : World) : Envelope × World × List Ev :=
  if data = [] ∨ cond = [] then
    (.failure ("Both " ++ sq ++ "data" ++ sq ++ " and " ++ sq ++ "where" ++ sq ++
      " must be provided"), w, [])
  else
    match eng (connect w db_path)
        (updateSql table (data.map Prod.fst) (cond.map Prod.fst))
        (data.map Prod.snd ++ cond.map Prod.snd) with
    | .error e =>
      (.failure (errStr e), w,
        [.connect db_path,
         .exec (updateSql table (data.map Prod.fst) (cond.map Prod.fst))
           (data.map Prod.snd ++ cond.map Prod.snd), .close])
    | .ok r =>
      (.affected r.rowcount, setW w db_path r.post,
        [.connect db_path,
         .exec (updateSql table (data.map Prod.fst) (cond.map Prod.fst))
           (data.map Prod.snd ++ cond.map Prod.snd), .commit, .close])

/-- delete_rows: the condition map must be nonempty, otherwise fail
validation before any store interaction. -/
def delete_rows (eng : Engine) (table : String) (cond : Record)
    (db_path : String) (w : World) : Envelope × World × List Ev :=
  if cond = [] then
    (.failure (sq ++ "where" ++ sq ++ " condition required to avoid accidental deletion"),
      w, [])
  else
    match eng (connect w db_path) (deleteSql table (cond.map Prod.fst))
        (cond.map Prod.snd) with
    | .error e =>
      (.failure (errStr e), w,
        [.connect db_path,
         .exec (deleteSql table (cond.map Prod.fst)) (cond.map Prod.snd), .close])
    | .ok r =>
      (.affected r.rowcount, setW w db_path r.post,
        [.connect db_path,
         .exec (deleteSql table (cond.map Prod.fst)) (cond.map Prod.snd),
         .commit, .close])

/-- add_column: reject a blank table name, a blank column name, or a
declared type outside the whitelist (case-insensitively) before any
store interaction; then run the ALTER statement, mapping the store's
duplicate-column and missing-table errors to their dedicated messages,
other operational errors and unexpected errors to generic ones. -/
def add_column (eng : Engine) (table column_name data_type db_path : String)
    (w : World) : Envelope × World × List Ev :=
  if pyStrip table = "" then (.failure "Table name cannot be empty", w, [])
  else if pyStrip column_name = "" then (.failure "Column name cannot be empty", w, [])
  else if pyUpper data_type ∉ allowed_types then
    (.failure ("Data type must be one of: " ++ String.intercalate ", " allowed_types),
      w, [])
  else
    match eng (connect w db_path) (alterSql table column_name data_type) [] with
    | .error (.operational m) =>
      if isSub "duplicate column name" (pyLower m) then
        (.failure ("Column " ++ sq ++ column_name ++ sq ++ " already exists in table " ++
          sq ++ table ++ sq), w,
          [.connect db_path, .exec (alterSql table column_name data_type) [], .close])
      else if isSub "no such table" (pyLower m) then
        (.failure ("Table " ++ sq ++ table ++ sq ++ " does not exist"), w,
          [.connect db_path, .exec (alterSql table column_name data_type) [], .close])
      else
        (.failure ("SQLite error: " ++ m), w,
          [.connect db_path, .exec (alterSql table column_name data_type) [], .close])
    | .error (.other m) =>
      (.failure ("Unexpected error: " ++ m), w,
        [.connect db_path, .exec (alterSql table column_name data_type) [], .close])
    | .ok r =>
      (.ack ("Column " ++ sq ++ column_name ++ sq ++ " (" ++ data_type ++
        ") added to table " ++ sq ++ table ++ sq), setW w db_path r.post,
        [.connect db_path, .exec (alterSql table column_name data_type) [],
         .commit, .close])

/-- The SQL texts and parameter lists handed to cursor.execute during an
operation, in order. -/
def execCalls (log : List Ev) : List (String × List Val) :=
  log.filterMap fun e =>
    match e with
    | .exec s p => some (s, p)
    | _ => none

/-- The claim's notion of a syntactically valid SQL identifier: nonempty,
starting with a letter or underscore, continuing with letters, digits or
underscores. -/
def pyValidIdent (s : String) : Bool :=
  match s.data with
  | [] => false
  | c :: cs => (c.isAlpha || c == Char.ofNat 95) &&
      cs.all fun d => d.isAlphanum || d == Char.ofNat 95

/-- A one-column table used to instantiate the general theorems. -/
def demoTable : Table := ⟨[⟨"a", "TEXT", false, .null, false⟩], 1, []⟩

/-- A world holding one database named db containing one table t. -/
def demoWorld : World := fun p => if p = "db" then some [("t", demoTable)] else none

/-- A driver on which every statement raises, to exercise error paths. -/
def failEngine : Engine := fun _ _ _ => .error (.other "disk I/O error")

theorem strData_append (a b : String) : (a ++ b).data = a.data ++ b.data := rfl

theorem connect_setW (w : World) (p : String) (st : Store) :
    connect (setW w p st) p = st := by
  simp [connect, setW]

theorem getTable_putTable (st : Store) (t : String) (tb : Table) :
    getTable (putTable st t tb) t = some tb := by
  induction st with
  | nil => simp [putTable, getTable]
  | cons hd rest ih =>
    by_cases h : hd.1 = t
    · simp [putTable, getTable, h]
    · simpa [putTable, getTable, h] using ih

theorem zip_fst_snd {α β : Type} (l : List (α × β)) :
    (l.map Prod.fst).zip (l.map Prod.snd) = l := by
  induction l with
  | nil => rfl
  | cons hd tl ih => simp [ih]

theorem pyDictZipAux (ks : List String) (vs : List Val) (acc : Record)
    (hnd : ks.Nodup) (hacc : ∀ k ∈ ks, ∀ p ∈ acc, p.1 ≠ k) :
    (ks.zip vs).foldl (fun d p => dictInsert d p.1 p.2) acc = acc ++ ks.zip vs := by
  induction ks generalizing vs acc with
  | nil => simp
  | cons k ks ih =>
    cases vs with
    | nil => simp
    | cons v vs =>
      simp only [List.zip_cons_cons, List.foldl_cons]
      have hknotin : k ∉ acc.map Prod.fst := by
        intro hmem
        rcases List.mem_map.mp hmem with ⟨p, hp, hpk⟩
        exact hacc k (by simp) p hp hpk
      rw [dictInsert, if_neg hknotin]
      have h2 : ∀ k2 ∈ ks, ∀ p ∈ acc ++ [(k, v)], p.1 ≠ k2 := by
        intro k2 hk2 p hp
        rcases List.mem_append.mp hp with h | h
        · exact hacc k2 (List.mem_cons_of_mem _ hk2) p h
        · have hpk : p = (k, v) := by simpa using h
          subst hpk
          intro hkk
          have hkeq : k = k2 := hkk
          rw [← hkeq] at hk2
          exact (List.nodup_cons.mp hnd).1 hk2
      rw [ih vs (acc ++ [(k, v)]) (List.nodup_cons.mp hnd).2 h2, List.append_assoc]
      rfl

theorem pyDictZip_nodup (ks : List String) (vs : List Val) (hnd : ks.Nodup) :
    pyDictZip ks vs = ks.zip vs := by
  unfold pyDictZip
  rw [pyDictZipAux ks vs [] hnd (by simp)]
  rfl

theorem map_dlookup_self (d : Record) (hnd : (d.map Prod.fst).Nodup) :
    (d.map Prod.fst).map (fun c => (dlookup d c).getD Val.null) = d.map Prod.snd := by
  induction d with
  | nil => rfl
  | cons hd tl ih =>
    obtain ⟨k, v⟩ := hd
    have hnd2 := hnd
    simp only [List.map_cons] at hnd2
    have hcons := List.nodup_cons.mp hnd2
    simp only [List.map_cons]
    congr 1
    · simp [dlookup]
    · have hsame : ∀ c ∈ tl.map Prod.fst,
          (dlookup ((k, v) :: tl) c).getD Val.null = (dlookup tl c).getD Val.null := by
        intro c hc
        have hne : k ≠ c := fun h => hcons.1 (h ▸ hc)
        simp [dlookup, hne]
      rw [List.map_congr_left hsame, ih hcons.2]

theorem dlookup_mem (d : Record) (hnd : (d.map Prod.fst).Nodup)
    (k : String) (v : Val) (hmem : (k, v) ∈ d) : dlookup d k = some v := by
  induction d with
  | nil => exact absurd hmem (by simp)
  | cons hd tl ih =>
    obtain ⟨k2, v2⟩ := hd
    have hnd2 := hnd
    simp only [List.map_cons] at hnd2
    have hcons := List.nodup_cons.mp hnd2
    rcases List.mem_cons.mp hmem with h | h
    · obtain ⟨hk, hv⟩ := Prod.mk.injEq .. ▸ h
      simp [dlookup, hk.symm, hv]
    · have hkin : k ∈ tl.map Prod.fst := List.mem_map.mpr ⟨(k, v), h, rfl⟩
      have hne : k2 ≠ k := fun he => hcons.1 (he ▸ hkin)
      simp only [dlookup, if_neg hne]
      exact ih hcons.2 h

theorem filter_rowid (rows : List (Nat × Record)) (n : Nat) (rec : Record)
    (h : ∀ p ∈ rows, p.1 < n) :
    (rows ++ [(n, rec)]).filter (fun p => p.1 = n) = [(n, rec)] := by
  rw [List.filter_append]
  have h1 : rows.filter (fun p => decide (p.1 = n)) = [] := by
    rw [List.filter_eq_nil_iff]
    intro p hp
    simpa using Nat.ne_of_lt (h p hp)
  rw [h1]
  simp

theorem execCalls_insert (eng : Engine) (table : String) (data : Record)
    (db : String) (w : World) (hd : data ≠ []) :
    execCalls (insert_row eng table data db w).2.2 =
      [(insertSql table (data.map Prod.fst), data.map Prod.snd)] := by
  simp only [insert_row, if_neg hd]
  cases eng (connect w db) (insertSql table (data.map Prod.fst)) (data.map Prod.snd) with
  | error e => simp [execCalls]
  | ok r => simp [execCalls]

theorem execCalls_update (eng : Engine) (table : String) (data cond : Record)
    (db : String) (w : World) (hd : data ≠ []) (hc : cond ≠ []) :
    execCalls (update_rows eng table data cond db w).2.2 =
      [(updateSql table (data.map Prod.fst) (cond.map Prod.fst),
        data.map Prod.snd ++ cond.map Prod.snd)] := by
  simp only [update_rows, if_neg (not_or_intro hd hc)]
  cases eng (connect w db) (updateSql table (data.map Prod.fst) (cond.map Prod.fst))
      (data.map Prod.snd ++ cond.map Prod.snd) with
  | error e => simp [execCalls]
  | ok r => simp [execCalls]

theorem execCalls_delete (eng : Engine) (table : String) (cond : Record)
    (db : String) (w : World) (hc : cond ≠ []) :
    execCalls (delete_rows eng table cond db w).2.2 =
      [(deleteSql table (cond.map Prod.fst), cond.map Prod.snd)] := by
  simp only [delete_rows, if_neg hc]
  cases eng (connect w db) (deleteSql table (cond.map Prod.fst)) (cond.map Prod.snd) with
  | error e => simp [execCalls]
  | ok r => simp [execCalls]

theorem execCalls_add_column (eng : Engine) (table col ty db : String) (w : World)
    (hT : pyStrip table ≠ "") (hC : pyStrip col ≠ "")
    (hTy : pyUpper ty ∈ allowed_types) :
    execCalls (add_column eng table col ty db w).2.2 = [(alterSql table col ty, [])] := by
  simp only [add_column, if_neg hT, if_neg hC, if_neg (not_not_intro hTy)]
  cases eng (connect w db) (alterSql table col ty) [] with
  | error e =>
    cases e with
    | operational m =>
      by_cases h1 : isSub "duplicate column name" (pyLower m)
      · simp [h1, execCalls]
      · by_cases h2 : isSub "no such table" (pyLower m)
        · simp [h1, h2, execCalls]
        · simp [h1, h2, execCalls]
    | other m => simp [execCalls]
  | ok r => simp [execCalls]

/-- C1 counterexample: the identifier-validation invariant fails on the
code. The table name given here is not a syntactically valid identifier,
yet insert_row hands the store SQL text with that name interpolated into
it — there is no validation failure before the SQL containing it is
built and executed. -/
theorem C1_claim_false :
    pyValidIdent "x; DROP TABLE y" = false ∧
    execCalls (insert_row sqliteEngine "x; DROP TABLE y" [("a", Val.int 1)] "db"
        (fun _ => none)).2.2 =
      [("INSERT INTO x; DROP TABLE y (a) VALUES (?)", [Val.int 1])] ∧
    (insert_row sqliteEngine "x; DROP TABLE y" [("a", Val.int 1)] "db"
        (fun _ => none)).2.2 ≠ [] :=
  ⟨by decide, by decide, by decide⟩

/-- C1 (amended): the structured operations perform no identifier
validation at all. Whatever the table and key strings are — valid
identifiers or not — insert_row, update_rows and delete_rows interpolate
them into the SQL text they hand to the store, and add_column does so
whenever the names are merely non-blank and the type whitelisted. -/
theorem C1_no_ident_validation (eng : Engine) (table col ty db : String)
    (data cond : Record) (w : World) :
    (data ≠ [] → execCalls (insert_row eng table data db w).2.2 =
      [(insertSql table (data.map Prod.fst), data.map Prod.snd)]) ∧
    (data ≠ [] → cond ≠ [] → execCalls (update_rows eng table data cond db w).2.2 =
      [(updateSql table (data.map Prod.fst) (cond.map Prod.fst),
        data.map Prod.snd ++ cond.map Prod.snd)]) ∧
    (cond ≠ [] → execCalls (delete_rows eng table cond db w).2.2 =
      [(deleteSql table (cond.map Prod.fst), cond.map Prod.snd)]) ∧
    (pyStrip table ≠ "" → pyStrip col ≠ "" → pyUpper ty ∈ allowed_types →
      execCalls (add_column eng table col ty db w).2.2 = [(alterSql table col ty, [])]) :=
  ⟨execCalls_insert eng table data db w,
   execCalls_update eng table data cond db w,
   execCalls_delete eng table cond db w,
   execCalls_add_column eng table col ty db w⟩

/-- Closed instance of C1_no_ident_validation: invalid identifiers are
interpolated verbatim by all four operations. -/
theorem C1_no_ident_validation_witness :
    execCalls (insert_row failEngine "x; DROP TABLE y" [("a", Val.int 1)] "db"
        (fun _ => none)).2.2 =
      [(insertSql "x; DROP TABLE y" ["a"], [Val.int 1])] ∧
    execCalls (update_rows failEngine "x; DROP TABLE y" [("a", Val.int 1)]
        [("b c", Val.null)] "db" (fun _ => none)).2.2 =
      [(updateSql "x; DROP TABLE y" ["a"] ["b c"], [Val.int 1, Val.null])] ∧
    execCalls (delete_rows failEngine "x; DROP TABLE y" [("b c", Val.null)] "db"
        (fun _ => none)).2.2 =
      [(deleteSql "x; DROP TABLE y" ["b c"], [Val.null])] ∧
    execCalls (add_column failEngine "x; DROP TABLE y" "b c" "text" "db"
        (fun _ => none)).2.2 =
      [(alterSql "x; DROP TABLE y" "b c" "text", [])] :=
  ⟨(C1_no_ident_validation failEngine "x; DROP TABLE y" "b c" "text" "db"
      [("a", Val.int 1)] [("b c", Val.null)] (fun _ => none)).1 (by decide),
   (C1_no_ident_validation failEngine "x; DROP TABLE y" "b c" "text" "db"
      [("a", Val.int 1)] [("b c", Val.null)] (fun _ => none)).2.1 (by decide) (by decide),
   (C1_no_ident_validation failEngine "x; DROP TABLE y" "b c" "text" "db"
      [("a", Val.int 1)] [("b c", Val.null)] (fun _ => none)).2.2.1 (by decide),
   (C1_no_ident_validation failEngine "x; DROP TABLE y" "b c" "text" "db"
      [("a", Val.int 1)] [("b c", Val.null)] (fun _ => none)).2.2.2
     (by decide) (by decide) (by decide)⟩

/-- C2: for insert_row, update_rows and delete_rows the SQL text handed
to the store carries only the table name and the key names — the values
travel only in the positional parameter list — so two calls agreeing on
table and key sets produce identical SQL text even with different
values. -/
theorem C2_sql_function_of_keys (eng : Engine) (table db : String) (w : World)
    (data data2 cond cond2 : Record) :
    (data ≠ [] → execCalls (insert_row eng table data db w).2.2 =
      [(insertSql table (data.map Prod.fst), data.map Prod.snd)]) ∧
    (data ≠ [] → cond ≠ [] → execCalls (update_rows eng table data cond db w).2.2 =
      [(updateSql table (data.map Prod.fst) (cond.map Prod.fst),
        data.map Prod.snd ++ cond.map Prod.snd)]) ∧
    (cond ≠ [] → execCalls (delete_rows eng table cond db w).2.2 =
      [(deleteSql table (cond.map Prod.fst), cond.map Prod.snd)]) ∧
    (data ≠ [] → data.map Prod.fst = data2.map Prod.fst →
      (execCalls (insert_row eng table data db w).2.2).map Prod.fst =
        (execCalls (insert_row eng table data2 db w).2.2).map Prod.fst) ∧
    (data ≠ [] → cond ≠ [] → data.map Prod.fst = data2.map Prod.fst →
      cond.map Prod.fst = cond2.map Prod.fst →
      (execCalls (update_rows eng table data cond db w).2.2).map Prod.fst =
        (execCalls (update_rows eng table data2 cond2 db w).2.2).map Prod.fst) ∧
    (cond ≠ [] → cond.map Prod.fst = cond2.map Prod.fst →
      (execCalls (delete_rows eng table cond db w).2.2).map Prod.fst =
        (execCalls (delete_rows eng table cond2 db w).2.2).map Prod.fst) := by
  have hne : ∀ (a b : Record), a.map Prod.fst = b.map Prod.fst → a ≠ [] → b ≠ [] := by
    intro a b heq ha hb
    exact ha (List.map_eq_nil_iff.mp (hb ▸ heq))
  refine ⟨execCalls_insert eng table data db w,
    execCalls_update eng table data cond db w,
    execCalls_delete eng table cond db w, ?_, ?_, ?_⟩
  · intro hd heq
    rw [execCalls_insert eng table data db w hd,
      execCalls_insert eng table data2 db w (hne data data2 heq hd), heq]
    simp
  · intro hd hc heqd heqc
    rw [execCalls_update eng table data cond db w hd hc,
      execCalls_update eng table data2 cond2 db w (hne data data2 heqd hd)
        (hne cond cond2 heqc hc), heqd, heqc]
    simp
  · intro hc heq
    rw [execCalls_delete eng table cond db w hc,
      execCalls_delete eng table cond2 db w (hne cond cond2 heq hc), heq]
    simp

/-- Closed instance of C2_sql_function_of_keys: two updates differing
only in values execute character-identical SQL. -/
theorem C2_sql_function_of_keys_witness :
    execCalls (insert_row sqliteEngine "t" [("a", Val.int 1)] "db" demoWorld).2.2 =
      [(insertSql "t" ["a"], [Val.int 1])] ∧
    (execCalls (update_rows sqliteEngine "t" [("a", Val.int 1)] [("b", Val.int 2)]
        "db" demoWorld).2.2).map Prod.fst =
      (execCalls (update_rows sqliteEngine "t" [("a", Val.text "zz")] [("b", Val.null)]
        "db" demoWorld).2.2).map Prod.fst ∧
    (execCalls (delete_rows sqliteEngine "t" [("b", Val.int 2)] "db" demoWorld).2.2).map
        Prod.fst =
      (execCalls (delete_rows sqliteEngine "t" [("b", Val.null)] "db" demoWorld).2.2).map
        Prod.fst :=
  ⟨(C2_sql_function_of_keys sqliteEngine "t" "db" demoWorld [("a", Val.int 1)]
      [("a", Val.text "zz")] [("b", Val.int 2)] [("b", Val.null)]).1 (by decide),
   (C2_sql_function_of_keys sqliteEngine "t" "db" demoWorld [("a", Val.int 1)]
      [("a", Val.text "zz")] [("b", Val.int 2)] [("b", Val.null)]).2.2.2.2.1
     (by decide) (by decide) (by decide) (by decide),
   (C2_sql_function_of_keys sqliteEngine "t" "db" demoWorld [("a", Val.int 1)]
      [("a", Val.text "zz")] [("b", Val.int 2)] [("b", Val.null)]).2.2.2.2.2
     (by decide) (by decide)⟩

/-- C3: update_rows with an empty condition map, delete_rows with an
empty condition map, and update_rows with an empty record map each
return the validation-failure envelope, leave the world unchanged, and
log no store event at all — no connection is opened. -/
theorem C3_empty_condition_validation (eng : Engine) (table : String)
    (data cond : Record) (db : String) (w : World) :
    (cond = [] →
      update_rows eng table data cond db w =
        (.failure ("Both " ++ sq ++ "data" ++ sq ++ " and " ++ sq ++ "where" ++ sq ++
          " must be provided"), w, []) ∧
      delete_rows eng table cond db w =
        (.failure (sq ++ "where" ++ sq ++
          " condition required to avoid accidental deletion"), w, [])) ∧
    (data = [] →
      update_rows eng table data cond db w =
        (.failure ("Both " ++ sq ++ "data" ++ sq ++ " and " ++ sq ++ "where" ++ sq ++
          " must be provided"), w, [])) := by
  constructor
  · intro hc
    constructor
    · simp only [update_rows, if_pos (Or.inr hc)]
    · simp only [delete_rows, if_pos hc]
  · intro hd
    simp only [update_rows, if_pos (Or.inl hd)]

/-- Closed instance of C3_empty_condition_validation on concrete calls. -/
theorem C3_empty_condition_validation_witness :
    update_rows sqliteEngine "t" [("a", Val.int 1)] [] "db" demoWorld =
      (.failure ("Both " ++ sq ++ "data" ++ sq ++ " and " ++ sq ++ "where" ++ sq ++
        " must be provided"), demoWorld, []) ∧
    delete_rows sqliteEngine "t" [] "db" demoWorld =
      (.failure (sq ++ "where" ++ sq ++
        " condition required to avoid accidental deletion"), demoWorld, []) ∧
    update_rows sqliteEngine "t" [] [("a", Val.int 1)] "db" demoWorld =
      (.failure ("Both " ++ sq ++ "data" ++ sq ++ " and " ++ sq ++ "where" ++ sq ++
        " must be provided"), demoWorld, []) :=
  ⟨((C3_empty_condition_validation sqliteEngine "t" [("a", Val.int 1)] [] "db"
      demoWorld).1 rfl).1,
   ((C3_empty_condition_validation sqliteEngine "t" [("a", Val.int 1)] [] "db"
      demoWorld).1 rfl).2,
   (C3_empty_condition_validation sqliteEngine "t" [] [("a", Val.int 1)] "db"
      demoWorld).2 rfl⟩

/-- C4: every store-driver error raised during any of the seven
operations is caught at the operation boundary and converted into the
tagged error result of that operation — no fault propagates to the
caller. (Validation errors are likewise returned as tagged failures,
per the C3 and C5 theorems.) -/
theorem C4_errors_normalized (eng : Engine) (query db table col ty : String)
    (data cond : Record) (w : World) (err : EngErr) :
    (eng (connect w db) query [] = .error err →
      (execute_sql_query eng query db w).1 = .failure (errStr err)) ∧
    (eng (connect w db) masterSql [] = .error err →
      (list_tables eng db w).1 = .err (errStr err) ∧
      (get_database_schema eng db w).1 = .err (errStr err)) ∧
    (data ≠ [] →
      eng (connect w db) (insertSql table (data.map Prod.fst)) (data.map Prod.snd) =
        .error err →
      (insert_row eng table data db w).1 = .failure (errStr err)) ∧
    (data ≠ [] → cond ≠ [] →
      eng (connect w db) (updateSql table (data.map Prod.fst) (cond.map Prod.fst))
          (data.map Prod.snd ++ cond.map Prod.snd) = .error err →
      (update_rows eng table data cond db w).1 = .failure (errStr err)) ∧
    (cond ≠ [] →
      eng (connect w db) (deleteSql table (cond.map Prod.fst)) (cond.map Prod.snd) =
        .error err →
      (delete_rows eng table cond db w).1 = .failure (errStr err)) ∧
    (pyStrip table ≠ "" → pyStrip col ≠ "" → pyUpper ty ∈ allowed_types →
      eng (connect w db) (alterSql table col ty) [] = .error err →
      ∃ m, (add_column eng table col ty db w).1 = .failure m) := by
  refine ⟨?_, ?_, ?_, ?_, ?_, ?_⟩
  · intro h
    simp only [execute_sql_query, h]
  · intro h
    constructor
    · simp only [list_tables, h]
    · simp only [get_database_schema, h]
  · intro hd h
    simp only [insert_row, if_neg hd, h]
  · intro hd hc h
    simp only [update_rows, if_neg (not_or_intro hd hc), h]
  · intro hc h
    simp only [delete_rows, if_neg hc, h]
  · intro hT hC hTy h
    simp only [add_column, if_neg hT, if_neg hC, if_neg (not_not_intro hTy), h]
    cases err with
    | operational m =>
      by_cases h1 : isSub "duplicate column name" (pyLower m)
      · exact ⟨"Column " ++ sq ++ col ++ sq ++ " already exists in table " ++ sq ++
          table ++ sq, by simp [h1]⟩
      · by_cases h2 : isSub "no such table" (pyLower m)
        · exact ⟨"Table " ++ sq ++ table ++ sq ++ " does not exist", by simp [h1, h2]⟩
        · exact ⟨"SQLite error: " ++ m, by simp [h1, h2]⟩
    | other m => exact ⟨"Unexpected error: " ++ m, by simp⟩

/-- Closed instance of C4_errors_normalized on a driver that raises on
every statement. -/
theorem C4_errors_normalized_witness :
    (execute_sql_query failEngine "SELECT 1" "db" demoWorld).1 =
      .failure "disk I/O error" ∧
    (list_tables failEngine "db" demoWorld).1 = .err "disk I/O error" ∧
    (get_database_schema failEngine "db" demoWorld).1 = .err "disk I/O error" ∧
    (insert_row failEngine "t" [("a", Val.int 1)] "db" demoWorld).1 =
      .failure "disk I/O error" ∧
    (update_rows failEngine "t" [("a", Val.int 1)] [("b", Val.int 2)] "db"
      demoWorld).1 = .failure "disk I/O error" ∧
    (delete_rows failEngine "t" [("b", Val.int 2)] "db" demoWorld).1 =
      .failure "disk I/O error" ∧
    ∃ m, (add_column failEngine "t" "c" "TEXT" "db" demoWorld).1 = .failure m :=
  ⟨(C4_errors_normalized failEngine "SELECT 1" "db" "t" "c" "TEXT" [("a", Val.int 1)]
      [("b", Val.int 2)] demoWorld (.other "disk I/O error")).1 rfl,
   ((C4_errors_normalized failEngine "SELECT 1" "db" "t" "c" "TEXT" [("a", Val.int 1)]
      [("b", Val.int 2)] demoWorld (.other "disk I/O error")).2.1 rfl).1,
   ((C4_errors_normalized failEngine "SELECT 1" "db" "t" "c" "TEXT" [("a", Val.int 1)]
      [("b", Val.int 2)] demoWorld (.other "disk I/O error")).2.1 rfl).2,
   (C4_errors_normalized failEngine "SELECT 1" "db" "t" "c" "TEXT" [("a", Val.int 1)]
      [("b", Val.int 2)] demoWorld (.other "disk I/O error")).2.2.1 (by decide) rfl,
   (C4_errors_normalized failEngine "SELECT 1" "db" "t" "c" "TEXT" [("a", Val.int 1)]
      [("b", Val.int 2)] demoWorld (.other "disk I/O error")).2.2.2.1
     (by decide) (by decide) rfl,
   (C4_errors_normalized failEngine "SELECT 1" "db" "t" "c" "TEXT" [("a", Val.int 1)]
      [("b", Val.int 2)] demoWorld (.other "disk I/O error")).2.2.2.2.1 (by decide) rfl,
   (C4_errors_normalized failEngine "SELECT 1" "db" "t" "c" "TEXT" [("a", Val.int 1)]
      [("b", Val.int 2)] demoWorld (.other "disk I/O error")).2.2.2.2.2
     (by decide) (by decide) (by decide) rfl⟩

/-- C5: add_column rejects a blank table name, a blank column name, and a
declared type whose ASCII upcasing is outside the whitelist, each time
with a validation-failure envelope, an unchanged world and no store
event; when the names are non-blank and the upcased type is whitelisted
(so any letter case of TEXT, INTEGER, REAL, NUMERIC, BLOB, DATE,
DATETIME), validation passes and the first store event is opening the
connection. -/
theorem C5_add_column_validation (eng : Engine) (table col ty db : String) (w : World) :
    (pyStrip table = "" →
      add_column eng table col ty db w = (.failure "Table name cannot be empty", w, [])) ∧
    (pyStrip table ≠ "" → pyStrip col = "" →
      add_column eng table col ty db w = (.failure "Column name cannot be empty", w, [])) ∧
    (pyStrip table ≠ "" → pyStrip col ≠ "" → pyUpper ty ∉ allowed_types →
      add_column eng table col ty db w =
        (.failure ("Data type must be one of: " ++ String.intercalate ", " allowed_types),
          w, [])) ∧
    (pyStrip table ≠ "" → pyStrip col ≠ "" → pyUpper ty ∈ allowed_types →
      (add_column eng table col ty db w).2.2.head? = some (.connect db)) := by
  refine ⟨?_, ?_, ?_, ?_⟩
  · intro h
    simp only [add_column, if_pos h]
  · intro h1 h2
    simp only [add_column, if_neg h1, if_pos h2]
  · intro h1 h2 h3
    simp only [add_column, if_neg h1, if_neg h2, if_pos h3]
  · intro h1 h2 h3
    simp only [add_column, if_neg h1, if_neg h2, if_neg (not_not_intro h3)]
    cases eng (connect w db) (alterSql table col ty) [] with
    | error e =>
      cases e with
      | operational m =>
        by_cases hd : isSub "duplicate column name" (pyLower m)
        · simp [hd]
        · by_cases hn : isSub "no such table" (pyLower m)
          · simp [hd, hn]
          · simp [hd, hn]
      | other m => simp
    | ok r => simp

/-- Closed instance of C5_add_column_validation: blank names and a
non-whitelisted type fail before any store event; a lower-case
whitelisted type passes validation and the connection is opened. -/
theorem C5_add_column_validation_witness :
    add_column sqliteEngine " " "c" "TEXT" "db" demoWorld =
      (.failure "Table name cannot be empty", demoWorld, []) ∧
    add_column sqliteEngine "t" "  " "TEXT" "db" demoWorld =
      (.failure "Column name cannot be empty", demoWorld, []) ∧
    add_column sqliteEngine "t" "c" "FLOAT" "db" demoWorld =
      (.failure ("Data type must be one of: " ++ String.intercalate ", " allowed_types),
        demoWorld, []) ∧
    (add_column sqliteEngine "t" "c" "text" "db" demoWorld).2.2.head? =
      some (.connect "db") :=
  ⟨(C5_add_column_validation sqliteEngine " " "c" "TEXT" "db" demoWorld).1 (by decide),
   (C5_add_column_validation sqliteEngine "t" "  " "TEXT" "db" demoWorld).2.1
     (by decide) (by decide),
   (C5_add_column_validation sqliteEngine "t" "c" "FLOAT" "db" demoWorld).2.2.1
     (by decide) (by decide) (by decide),
   (C5_add_column_validation sqliteEngine "t" "c" "text" "db" demoWorld).2.2.2
     (by decide) (by decide) (by decide)⟩

/-- C6: execute_sql_query classifies purely by the leading keyword of the
trimmed, upcased text. When the statement runs without a driver error:
a SELECT-classified text returns the fetched rows paired with the result
description and commits nothing; any other text is committed (the
post-statement store is persisted) and its affected row count returned. -/
theorem C6_classify_by_keyword (eng : Engine) (query db : String) (w : World)
    (r : ExecResult) (hok : eng (connect w db) query [] = .ok r) :
    (pyStartsWithSelect query = true →
      execute_sql_query eng query db w =
        (.rows (r.fetched.map (pyDictZip r.description)), w,
          [.connect db, .exec query [], .close])) ∧
    (pyStartsWithSelect query = false →
      execute_sql_query eng query db w =
        (.affected r.rowcount, setW w db r.post,
          [.connect db, .exec query [], .commit, .close])) := by
  constructor <;> intro h <;> simp only [execute_sql_query, hok] <;> simp [h]

/-- Closed instance of C6_classify_by_keyword: a lower-case select
(the catalog query) yields Rows, and an ALTER statement yields Affected
with its store change committed. -/
theorem C6_classify_by_keyword_witness :
    execute_sql_query sqliteEngine masterSql "db" demoWorld =
      (.rows [[("name", Val.text "t")]], demoWorld,
        [.connect "db", .exec masterSql [], .close]) ∧
    execute_sql_query sqliteEngine (alterSql "t" "b" "TEXT") "db" demoWorld =
      (.affected (-1),
        setW demoWorld "db"
          [("t", ⟨[⟨"a", "TEXT", false, .null, false⟩, ⟨"b", "TEXT", false, .null, false⟩],
            1, []⟩)],
        [.connect "db", .exec (alterSql "t" "b" "TEXT") [], .commit, .close]) :=
  ⟨(C6_classify_by_keyword sqliteEngine masterSql "db" demoWorld
      ⟨["name"], [[Val.text "t"]], -1, 0, [("t", demoTable)]⟩ (by decide)).1 (by decide),
   (C6_classify_by_keyword sqliteEngine (alterSql "t" "b" "TEXT") "db" demoWorld
      ⟨[], [], -1, 0,
        [("t", ⟨[⟨"a", "TEXT", false, .null, false⟩, ⟨"b", "TEXT", false, .null, false⟩],
          1, []⟩)]⟩ (by decide)).2 (by decide)⟩

/-- C7: against the modelled store, inserting a valid non-empty record
into an existing table returns InsertedId carrying the generated rowid,
and a subsequent SELECT of the record's columns for that rowid through
execute_sql_query returns a Rows envelope holding exactly the inserted
record. The syntactic hypotheses say the generated SQL texts parse back
to the intended statements and the select text is SELECT-classified —
conditions any identifier-valid names satisfy. -/
theorem C7_insert_select_roundtrip (table db : String) (data : Record) (w : World)
    (tb : Table)
    (hne : data ≠ [])
    (hnd : (data.map Prod.fst).Nodup)
    (htb : getTable (connect w db) table = some tb)
    (hcols : ∀ c ∈ data.map Prod.fst, c ∈ colNames tb.cols)
    (hwf : ∀ p ∈ tb.rows, p.1 < tb.nextId)
    (hparseIns : parseStmt (insertSql table (data.map Prod.fst)) =
      some (.insertInto table (data.map Prod.fst)))
    (hparseSel : parseStmt (selectSql (data.map Prod.fst) table tb.nextId) =
      some (.selectRowid (data.map Prod.fst) table tb.nextId))
    (hsel : pyStartsWithSelect (selectSql (data.map Prod.fst) table tb.nextId) = true) :
    (insert_row sqliteEngine table data db w).1 = .insertedId tb.nextId ∧
    (execute_sql_query sqliteEngine (selectSql (data.map Prod.fst) table tb.nextId)
      db (insert_row sqliteEngine table data db w).2.1).1 = .rows [data] := by
  have hzip : (data.map Prod.fst).zip (data.map Prod.snd) = data := zip_fst_snd data
  have heng1 : sqliteEngine (connect w db) (insertSql table (data.map Prod.fst))
      (data.map Prod.snd) =
      .ok ⟨[], [], 1, tb.nextId, putTable (connect w db) table
        ⟨tb.cols, tb.nextId + 1, tb.rows ++ [(tb.nextId, data)]⟩⟩ := by
    simp only [sqliteEngine, hparseIns, runStmt, htb]
    rw [if_pos hcols, if_pos (by simp), hzip]
  have hins : insert_row sqliteEngine table data db w =
      (.insertedId tb.nextId,
       setW w db (putTable (connect w db) table
         ⟨tb.cols, tb.nextId + 1, tb.rows ++ [(tb.nextId, data)]⟩),
       [.connect db,
        .exec (insertSql table (data.map Prod.fst)) (data.map Prod.snd),
        .commit, .close]) := by
    simp only [insert_row, if_neg hne, heng1]
  refine ⟨by rw [hins], ?_⟩
  rw [hins]
  have hc2 : connect (setW w db (putTable (connect w db) table
      ⟨tb.cols, tb.nextId + 1, tb.rows ++ [(tb.nextId, data)]⟩)) db =
      putTable (connect w db) table
        ⟨tb.cols, tb.nextId + 1, tb.rows ++ [(tb.nextId, data)]⟩ :=
    connect_setW w db _
  have htb2 : getTable (putTable (connect w db) table
      ⟨tb.cols, tb.nextId + 1, tb.rows ++ [(tb.nextId, data)]⟩) table =
      some ⟨tb.cols, tb.nextId + 1, tb.rows ++ [(tb.nextId, data)]⟩ :=
    getTable_putTable _ _ _
  have hfilter : ((tb.rows ++ [(tb.nextId, data)]).filter fun p => p.1 = tb.nextId) =
      [(tb.nextId, data)] := filter_rowid tb.rows tb.nextId data hwf
  have heng2 : sqliteEngine (putTable (connect w db) table
      ⟨tb.cols, tb.nextId + 1, tb.rows ++ [(tb.nextId, data)]⟩)
      (selectSql (data.map Prod.fst) table tb.nextId) [] =
      .ok ⟨data.map Prod.fst, [data.map Prod.snd], -1, 0,
        putTable (connect w db) table
          ⟨tb.cols, tb.nextId + 1, tb.rows ++ [(tb.nextId, data)]⟩⟩ := by
    simp only [sqliteEngine, hparseSel, runStmt, htb2]
    rw [if_pos hcols, hfilter]
    simp only [List.map_cons, List.map_nil]
    rw [map_dlookup_self data hnd]
  simp only [execute_sql_query, hc2, heng2]
  simp only [hsel, if_pos, List.map_cons, List.map_nil]
  rw [pyDictZip_nodup _ _ hnd, hzip]

/-- Closed instance of C7_insert_select_roundtrip: inserting the record
mapping column a to the text x into table t yields rowid 1, and
selecting column a where rowid = 1 returns exactly that record. -/
theorem C7_insert_select_roundtrip_witness :
    (insert_row sqliteEngine "t" [("a", Val.text "x")] "db" demoWorld).1 =
      .insertedId 1 ∧
    (execute_sql_query sqliteEngine (selectSql ["a"] "t" 1) "db"
      (insert_row sqliteEngine "t" [("a", Val.text "x")] "db" demoWorld).2.1).1 =
      .rows [[("a", Val.text "x")]] :=
  C7_insert_select_roundtrip "t" "db" [("a", Val.text "x")] demoWorld demoTable
    (by decide) (by decide) (by decide) (by decide) (by decide) (by decide)
    (by decide) (by decide)

/-- C8: against the modelled store, add_column on a table that already
has a column of the requested name (with inputs that pass the earlier
validation, and an ALTER text the engine recognizes) returns the
dedicated duplicate-column failure envelope, and the world — hence the
table's column list — is left unchanged. -/
theorem C8_duplicate_column (table col ty db : String) (w : World) (tb : Table)
    (hT : pyStrip table ≠ "") (hC : pyStrip col ≠ "")
    (hTy : pyUpper ty ∈ allowed_types)
    (htb : getTable (connect w db) table = some tb)
    (hdup : col ∈ colNames tb.cols)
    (hparse : parseStmt (alterSql table col ty) = some (.alterAdd table col ty)) :
    add_column sqliteEngine table col ty db w =
      (.failure ("Column " ++ sq ++ col ++ sq ++ " already exists in table " ++
        sq ++ table ++ sq), w,
       [.connect db, .exec (alterSql table col ty) [], .close]) := by
  have heng : sqliteEngine (connect w db) (alterSql table col ty) [] =
      .error (.operational ("duplicate column name: " ++ col)) := by
    simp only [sqliteEngine, hparse, runStmt, htb]
    rw [if_pos hdup]
  have hisSub : isSub "duplicate column name"
      (pyLower ("duplicate column name: " ++ col)) := by
    show "duplicate column name".data <:+: (pyLower ("duplicate column name: " ++ col)).data
    have h1 : (pyLower ("duplicate column name: " ++ col)).data =
        "duplicate column name: ".data.map Char.toLower ++ col.data.map Char.toLower := by
      show (("duplicate column name: " ++ col).data).map Char.toLower = _
      rw [strData_append, List.map_append]
    rw [h1]
    have h2 : "duplicate column name".data <+:
        "duplicate column name: ".data.map Char.toLower := by decide
    exact (h2.trans (List.prefix_append _ _)).isInfix
  simp only [add_column, if_neg hT, if_neg hC, if_neg (not_not_intro hTy), heng]
  rw [if_pos hisSub]

/-- Closed instance of C8_duplicate_column: adding the existing column a
of table t fails with the duplicate-column message and changes nothing. -/
theorem C8_duplicate_column_witness :
    add_column sqliteEngine "t" "a" "TEXT" "db" demoWorld =
      (.failure ("Column " ++ sq ++ "a" ++ sq ++ " already exists in table " ++
        sq ++ "t" ++ sq), demoWorld,
       [.connect "db", .exec (alterSql "t" "a" "TEXT") [], .close]) :=
  C8_duplicate_column "t" "a" "TEXT" "db" demoWorld demoTable (by decide) (by decide)
    (by decide) (by decide) (by decide) (by decide)

/-- C9: a read-classified statement that executes without a driver error
returns a Rows envelope pairing every fetched row with the result
description: when the description has no duplicate names and each row is
as long as the description, the records are exactly the zips of the
description with the rows, the record count equals the fetched row
count, and looking any description name up in a record yields that row's
value for it. -/
theorem C9_read_rows_pairing (eng : Engine) (query db : String) (w : World)
    (r : ExecResult) (hok : eng (connect w db) query [] = .ok r)
    (hsel : pyStartsWithSelect query = true)
    (hnd : r.description.Nodup)
    (hlen : ∀ row ∈ r.fetched, row.length = r.description.length) :
    (execute_sql_query eng query db w).1 =
      .rows (r.fetched.map fun row => r.description.zip row) ∧
    (r.fetched.map (pyDictZip r.description)).length = r.fetched.length ∧
    (∀ row ∈ r.fetched, ∀ c x, (c, x) ∈ r.description.zip row →
      dlookup (pyDictZip r.description row) c = some x) := by
  refine ⟨?_, by simp, ?_⟩
  · simp only [execute_sql_query, hok]
    simp only [hsel, if_pos]
    have : r.fetched.map (pyDictZip r.description) =
        r.fetched.map fun row => r.description.zip row :=
      List.map_congr_left fun row _ => pyDictZip_nodup _ _ hnd
    rw [this]
  · intro row hrow c x hcx
    rw [pyDictZip_nodup _ _ hnd]
    apply dlookup_mem
    · have hfst : (r.description.zip row).map Prod.fst = r.description :=
        List.map_fst_zip _ _ (le_of_eq (hlen row hrow).symm)
      rw [hfst]
      exact hnd
    · exact hcx

/-- Closed instance of C9_read_rows_pairing on the catalog query. -/
theorem C9_read_rows_pairing_witness :
    (execute_sql_query sqliteEngine masterSql "db" demoWorld).1 =
      .rows [[("name", Val.text "t")]] ∧
    ([[Val.text "t"]].map (pyDictZip ["name"])).length = [[Val.text "t"]].length :=
  ⟨(C9_read_rows_pairing sqliteEngine masterSql "db" demoWorld
      ⟨["name"], [[Val.text "t"]], -1, 0, [("t", demoTable)]⟩
      (by decide) (by decide) (by decide) (by decide)).1,
   (C9_read_rows_pairing sqliteEngine masterSql "db" demoWorld
      ⟨["name"], [[Val.text "t"]], -1, 0, [("t", demoTable)]⟩
      (by decide) (by decide) (by decide) (by decide)).2.1⟩

/-- C10: a db path at which no database file exists is not a store-open
failure: the modelled sqlite3.connect silently creates an empty store
there, so list_tables reports an empty name list and get_database_schema
an empty schema, both as successful results. -/
theorem C10_missing_file_empty (db : String) (w : World) (hnone : w db = none) :
    list_tables sqliteEngine db w =
      (.ok [], w, [.connect db, .exec masterSql [], .close]) ∧
    get_database_schema sqliteEngine db w =
      (.ok [], w, [.connect db, .exec masterSql [], .close]) := by
  have hc : connect w db = [] := by simp [connect, hnone]
  have he : sqliteEngine [] masterSql [] =
      .ok ⟨["name"], [], -1, 0, []⟩ := by decide
  constructor
  · simp only [list_tables, hc, he]
    simp
  · simp only [get_database_schema, hc, he]
    simp [schemaLoop]

/-- Closed instance of C10_missing_file_empty at an absent path. -/
theorem C10_missing_file_empty_witness :
    list_tables sqliteEngine "no-such-file.db" (fun _ => none) =
      (.ok [], (fun _ => none : World),
        [.connect "no-such-file.db", .exec masterSql [], .close]) ∧
    get_database_schema sqliteEngine "no-such-file.db" (fun _ => none) =
      (.ok [], (fun _ => none : World),
        [.connect "no-such-file.db", .exec masterSql [], .close]) :=
  C10_missing_file_empty "no-such-file.db" (fun _ => none) rfl

end SqliteTool
